import Mathlib

/-!
# Theme toggle of the dashboard (assets/theme_toggle.js)

A shallow embedding of `window.dash_clientside.clientside.toggleTheme`.

The function touches two pieces of ambient browser state:

* `document.body.classList`, a DOM token list (an ordered set of class names),
  through `contains`, `add` and `remove`;
* `localStorage`, a key/value store of strings, through `getItem` and `setItem`.

Both are made explicit in the record `Browser`; a call maps a trigger value and
a browser state to the next browser state together with the returned array.
-/

namespace ThemeToggle

/-! ## Data model -/

/-- JavaScript values that the host framework can hand over as `n_clicks_theme`.
Only the identity tests against `undefined` and `null` are used by the code. -/
inductive JSValue where
  | undefined : JSValue
  | null : JSValue
  | number (n : Int) : JSValue
  | string (s : String) : JSValue
  | boolean (b : Bool) : JSValue
  | object (ref : Nat) : JSValue
  deriving DecidableEq, Repr

/-- The test `v === undefined`. -/
def JSValue.isUndefined : JSValue → Bool
  | .undefined => true
  | _ => false

/-- The test `v === null`. -/
def JSValue.isNull : JSValue → Bool
  | .null => true
  | _ => false

/-- DOM token list of the body element: class names in insertion order. -/
abbrev ClassList := List String

/-- Method `classList.contains(cls)`. -/
def ClassList.contains (l : ClassList) (cls : String) : Bool :=
  decide (cls ∈ l)

/-- Method `classList.add(cls)`: the token is appended unless already present. -/
def ClassList.add (l : ClassList) (cls : String) : ClassList :=
  if cls ∈ l then l else l ++ [cls]

/-- Method `classList.remove(cls)`: every occurrence of the token is dropped. -/
def ClassList.remove (l : ClassList) (cls : String) : ClassList :=
  l.filter (fun c => decide (c ≠ cls))

/-- Web storage area: key/value pairs of strings in insertion order. -/
abbrev Storage := List (String × String)

/-- Method `localStorage.getItem(key)`; `none` stands for the result `null`. -/
def Storage.getItem : Storage → String → Option String
  | [], _ => none
  | (k, v) :: rest, key => if k = key then some v else Storage.getItem rest key

/-- Method `localStorage.setItem(key, value)`: an existing key keeps its place and
gets the new value, a new key is appended. -/
def Storage.setItem : Storage → String → String → Storage
  | [], key, value => [(key, value)]
  | (k, v) :: rest, key, value =>
    if k = key then (key, value) :: rest else (k, v) :: Storage.setItem rest key value

/-- JavaScript truthiness of the result of `getItem`: `null` and the empty string
are falsy, every other string is truthy. -/
def truthy : Option String → Bool
  | none => false
  | some s => decide (s ≠ "")

/-- Ambient state read and written by the callback. -/
structure Browser where
  /-- Field `document.body.classList`. -/
  bodyClassList : ClassList
  /-- Global `localStorage`. -/
  localStorage : Storage
  deriving DecidableEq, Repr

/-! ## The callback -/

/-- Constant `lightThemeClass`. -/
def lightThemeClass : String := "theme-light"

/-- Embedding of `toggleTheme(n_clicks_theme)`: the browser state after the call
and the returned array `[newIconClassName, newButtonText]`. -/
def toggleTheme (n_clicks_theme : JSValue) (w : Browser) : Browser × List String :=
  let currentTheme : String :=
    if w.bodyClassList.contains lightThemeClass then "light" else "dark"
  let step : Browser × String :=
    if n_clicks_theme.isUndefined || n_clicks_theme.isNull then
      let storedTheme := w.localStorage.getItem "theme"
      let currentTheme1 : String :=
        if truthy storedTheme then storedTheme.getD "" else currentTheme
      if currentTheme1 = "light" then
        ({ w with bodyClassList := w.bodyClassList.add lightThemeClass }, currentTheme1)
      else
        ({ w with bodyClassList := w.bodyClassList.remove lightThemeClass }, currentTheme1)
    else
      if currentTheme = "light" then
        ({ bodyClassList := w.bodyClassList.remove lightThemeClass,
           localStorage := w.localStorage.setItem "theme" "dark" }, "dark")
      else
        ({ bodyClassList := w.bodyClassList.add lightThemeClass,
           localStorage := w.localStorage.setItem "theme" "light" }, "light")
  let out : List String :=
    if step.2 = "light" then ["fas fa-moon", " Escuro"] else ["fas fa-sun", " Claro"]
  (step.1, out)

/-- The body carries the class `theme-light`. -/
def isLight (w : Browser) : Bool :=
  w.bodyClassList.contains lightThemeClass

/-- Value of `localStorage.getItem('theme')`. -/
def storedTheme (w : Browser) : Option String :=
  w.localStorage.getItem "theme"

/-- Browser state after a sequence of calls, one per trigger, oldest first. -/
def runCalls : List JSValue → Browser → Browser
  | [], w => w
  | n :: ns, w => runCalls ns (toggleTheme n w).1

/-- Value of the variable `currentTheme` at the end of the branch taken when the
trigger is `undefined` or `null`: the stored string when it is truthy, the theme
read from the body class otherwise. -/
def loadTheme (w : Browser) : String :=
  if truthy (storedTheme w) then (storedTheme w).getD ""
  else if isLight w then "light" else "dark"

/-- The stored theme is absent or one of the two literal strings. -/
def validStore (w : Browser) : Prop :=
  storedTheme w = none ∨ storedTheme w = some "light" ∨ storedTheme w = some "dark"

instance (w : Browser) : Decidable (validStore w) := by
  unfold validStore
  infer_instance

/-! ## Facts about the token list and the storage area -/

theorem ClassList.contains_add (l : ClassList) (cls : String) :
    (l.add cls).contains cls = true := by
  unfold ClassList.add ClassList.contains
  by_cases h : cls ∈ l <;> simp [h]

theorem ClassList.contains_remove (l : ClassList) (cls : String) :
    (l.remove cls).contains cls = false := by
  unfold ClassList.remove ClassList.contains
  simp

theorem ClassList.add_of_contains (l : ClassList) (cls : String)
    (h : l.contains cls = true) : l.add cls = l := by
  unfold ClassList.contains at h
  unfold ClassList.add
  simp at h
  simp [h]

theorem ClassList.remove_of_not_contains (l : ClassList) (cls : String)
    (h : l.contains cls = false) : l.remove cls = l := by
  unfold ClassList.contains at h
  unfold ClassList.remove
  simp at h
  rw [List.filter_eq_self]
  intro a ha
  have : a ≠ cls := fun e => h (e ▸ ha)
  simp [this]

theorem Storage.getItem_setItem (s : Storage) (key value : String) :
    (s.setItem key value).getItem key = some value := by
  induction s with
  | nil => simp [Storage.setItem, Storage.getItem]
  | cons p rest ih =>
    obtain ⟨k, v⟩ := p
    by_cases h : k = key
    · simp [Storage.setItem, Storage.getItem, h]
    · simp [Storage.setItem, Storage.getItem, h, ih]

theorem Storage.getItem_setItem_of_ne (s : Storage) (key value other : String)
    (hne : other ≠ key) :
    (s.setItem key value).getItem other = s.getItem other := by
  induction s with
  | nil =>
    have : key ≠ other := fun e => hne e.symm
    simp [Storage.setItem, Storage.getItem, this]
  | cons p rest ih =>
    obtain ⟨k, v⟩ := p
    by_cases h : k = key
    · have : key ≠ other := fun e => hne e.symm
      simp [Storage.setItem, Storage.getItem, h, this]
    · by_cases h2 : k = other
      · subst h2
        simp [Storage.setItem, Storage.getItem, hne]
      · simp [Storage.setItem, Storage.getItem, h, h2, ih]

theorem Storage.getItem_setItem_isSome (s : Storage) (key value other : String)
    (h : (s.getItem other).isSome = true) :
    ((s.setItem key value).getItem other).isSome = true := by
  by_cases e : other = key
  · subst e
    simp [Storage.getItem_setItem]
  · rw [Storage.getItem_setItem_of_ne s key value other e]
    exact h

/-! ## The two paths of the callback -/

theorem JSValue.click_tests (n : JSValue) (hu : n ≠ JSValue.undefined)
    (hn : n ≠ JSValue.null) : (n.isUndefined || n.isNull) = false := by
  cases n <;> simp_all [JSValue.isUndefined, JSValue.isNull]

theorem JSValue.load_tests (n : JSValue) (h : n = JSValue.undefined ∨ n = JSValue.null) :
    (n.isUndefined || n.isNull) = true := by
  rcases h with h | h <;> subst h <;> rfl

/-- Click path: the theme read from the body class is flipped and persisted. -/
theorem toggleTheme_click (n : JSValue) (w : Browser) (hu : n ≠ JSValue.undefined)
    (hn : n ≠ JSValue.null) :
    toggleTheme n w =
      if isLight w then
        ({ bodyClassList := w.bodyClassList.remove lightThemeClass,
           localStorage := w.localStorage.setItem "theme" "dark" },
         ["fas fa-sun", " Claro"])
      else
        ({ bodyClassList := w.bodyClassList.add lightThemeClass,
           localStorage := w.localStorage.setItem "theme" "light" },
         ["fas fa-moon", " Escuro"]) := by
  unfold toggleTheme isLight
  rw [JSValue.click_tests n hu hn]
  cases w.bodyClassList.contains lightThemeClass <;> simp

/-- Load path: the theme is the stored string when that is truthy, the one read
from the body class otherwise; the storage area is not written. -/
theorem toggleTheme_load (n : JSValue) (w : Browser)
    (h : n = JSValue.undefined ∨ n = JSValue.null) :
    toggleTheme n w =
      if loadTheme w = "light" then
        ({ w with bodyClassList := w.bodyClassList.add lightThemeClass },
         ["fas fa-moon", " Escuro"])
      else
        ({ w with bodyClassList := w.bodyClassList.remove lightThemeClass },
         ["fas fa-sun", " Claro"]) := by
  unfold toggleTheme loadTheme isLight storedTheme
  rw [JSValue.load_tests n h]
  simp only [if_true]
  split <;> split <;> simp_all

theorem isLight_after_load (n : JSValue) (w : Browser)
    (h : n = JSValue.undefined ∨ n = JSValue.null) :
    isLight (toggleTheme n w).1 = decide (loadTheme w = "light") := by
  rw [toggleTheme_load n w h]
  by_cases hr : loadTheme w = "light"
  · rw [if_pos hr]
    simp [hr, isLight, ClassList.contains_add]
  · rw [if_neg hr]
    simp [hr, isLight, ClassList.contains_remove]

theorem output_after_load (n : JSValue) (w : Browser)
    (h : n = JSValue.undefined ∨ n = JSValue.null) :
    (toggleTheme n w).2 =
      if loadTheme w = "light" then ["fas fa-moon", " Escuro"]
      else ["fas fa-sun", " Claro"] := by
  rw [toggleTheme_load n w h]
  by_cases hr : loadTheme w = "light"
  · rw [if_pos hr, if_pos hr]
  · rw [if_neg hr, if_neg hr]

theorem localStorage_after_load (n : JSValue) (w : Browser)
    (h : n = JSValue.undefined ∨ n = JSValue.null) :
    (toggleTheme n w).1.localStorage = w.localStorage := by
  rw [toggleTheme_load n w h]
  by_cases hr : loadTheme w = "light"
  · rw [if_pos hr]
  · rw [if_neg hr]

theorem isLight_after_click (n : JSValue) (w : Browser) (hu : n ≠ JSValue.undefined)
    (hn : n ≠ JSValue.null) : isLight (toggleTheme n w).1 = !isLight w := by
  rw [toggleTheme_click n w hu hn]
  by_cases h : isLight w = true
  · rw [if_pos h, h]
    simp [isLight, ClassList.contains_remove]
  · rw [if_neg h]
    have h2 : isLight w = false := by simpa using h
    rw [h2]
    simp [isLight, ClassList.contains_add]

theorem storedTheme_after_click (n : JSValue) (w : Browser) (hu : n ≠ JSValue.undefined)
    (hn : n ≠ JSValue.null) :
    storedTheme (toggleTheme n w).1 = some (if isLight w then "dark" else "light") := by
  rw [toggleTheme_click n w hu hn]
  by_cases h : isLight w = true
  · rw [if_pos h, if_pos h]
    simp [storedTheme, Storage.getItem_setItem]
  · rw [if_neg h, if_neg h]
    simp [storedTheme, Storage.getItem_setItem]

theorem output_after_click (n : JSValue) (w : Browser) (hu : n ≠ JSValue.undefined)
    (hn : n ≠ JSValue.null) :
    (toggleTheme n w).2 =
      if isLight w then ["fas fa-sun", " Claro"] else ["fas fa-moon", " Escuro"] := by
  rw [toggleTheme_click n w hu hn]
  by_cases h : isLight w = true
  · rw [if_pos h, if_pos h]
  · rw [if_neg h, if_neg h]

/-- On every path the returned array is decided by the body class left behind. -/
theorem output_eq_of_isLight (n : JSValue) (w : Browser) :
    (toggleTheme n w).2 =
      if isLight (toggleTheme n w).1 then ["fas fa-moon", " Escuro"]
      else ["fas fa-sun", " Claro"] := by
  by_cases hc : n = JSValue.undefined ∨ n = JSValue.null
  · rw [output_after_load n w hc, isLight_after_load n w hc]
    by_cases hr : loadTheme w = "light" <;> simp [hr]
  · have hu : n ≠ JSValue.undefined := fun e => hc (Or.inl e)
    have hn : n ≠ JSValue.null := fun e => hc (Or.inr e)
    rw [output_after_click n w hu hn, isLight_after_click n w hu hn]
    by_cases h : isLight w = true
    · simp [h]
    · have h2 : isLight w = false := by simpa using h
      simp [h2]

theorem loadTheme_of_stored (w : Browser) (t : String) (ht : t ≠ "")
    (h : storedTheme w = some t) : loadTheme w = t := by
  unfold loadTheme
  rw [h]
  simp [truthy, ht]

theorem loadTheme_of_absent (w : Browser) (h : storedTheme w = none) :
    loadTheme w = if isLight w then "light" else "dark" := by
  unfold loadTheme
  rw [h]
  simp [truthy]

theorem validStore_after (n : JSValue) (w : Browser) (h : validStore w) :
    validStore (toggleTheme n w).1 := by
  by_cases hc : n = JSValue.undefined ∨ n = JSValue.null
  · unfold validStore storedTheme
    rw [localStorage_after_load n w hc]
    exact h
  · have hu : n ≠ JSValue.undefined := fun e => hc (Or.inl e)
    have hn : n ≠ JSValue.null := fun e => hc (Or.inr e)
    unfold validStore
    rw [storedTheme_after_click n w hu hn]
    by_cases hl : isLight w = true
    · rw [if_pos hl]
      exact Or.inr (Or.inr rfl)
    · rw [if_neg hl]
      exact Or.inr (Or.inl rfl)

theorem validStore_runCalls (ns : List JSValue) (w : Browser) (h : validStore w) :
    validStore (runCalls ns w) := by
  induction ns generalizing w with
  | nil => exact h
  | cons n rest ih => exact ih (toggleTheme n w).1 (validStore_after n w h)

/-! ## The claims -/

/-- C1. A call whose trigger is neither `undefined` nor `null` (the click count 0
included) flips the theme read from the body class, whatever is stored: from dark
the body gets `theme-light`, the store holds "light" and the moon icon is returned;
from light the class is gone, the store holds "dark" and the sun icon is returned. -/
theorem click_flips_active_theme (n : JSValue) (w : Browser)
    (hu : n ≠ JSValue.undefined) (hn : n ≠ JSValue.null) :
    (isLight w = false →
      isLight (toggleTheme n w).1 = true ∧
      storedTheme (toggleTheme n w).1 = some "light" ∧
      (toggleTheme n w).2 = ["fas fa-moon", " Escuro"]) ∧
    (isLight w = true →
      isLight (toggleTheme n w).1 = false ∧
      storedTheme (toggleTheme n w).1 = some "dark" ∧
      (toggleTheme n w).2 = ["fas fa-sun", " Claro"]) := by
  rw [isLight_after_click n w hu hn, storedTheme_after_click n w hu hn,
    output_after_click n w hu hn]
  constructor
  · intro h
    simp [h]
  · intro h
    simp [h]

/-- Witness for C1: click count 0 on a dark body with a malformed stored value. -/
theorem click_flips_active_theme_witness :
    isLight (toggleTheme (JSValue.number 0) ⟨["card"], [("theme", "blue")]⟩).1 = true ∧
    storedTheme (toggleTheme (JSValue.number 0) ⟨["card"], [("theme", "blue")]⟩).1
      = some "light" ∧
    (toggleTheme (JSValue.number 0) ⟨["card"], [("theme", "blue")]⟩).2
      = ["fas fa-moon", " Escuro"] :=
  (click_flips_active_theme (JSValue.number 0) ⟨["card"], [("theme", "blue")]⟩
    (by decide) (by decide)).1 (by decide)

/-- C2. Two calls in a row with a present trigger, from either theme and any stored
value, leave the presence of `theme-light` on the body as it was, and the second
call returns the array that belongs to the starting theme. -/
theorem double_click_restores_theme (n₁ n₂ : JSValue) (w : Browser)
    (hu₁ : n₁ ≠ JSValue.undefined) (hn₁ : n₁ ≠ JSValue.null)
    (hu₂ : n₂ ≠ JSValue.undefined) (hn₂ : n₂ ≠ JSValue.null) :
    isLight (toggleTheme n₂ (toggleTheme n₁ w).1).1 = isLight w ∧
    (toggleTheme n₂ (toggleTheme n₁ w).1).2 =
      if isLight w then ["fas fa-moon", " Escuro"] else ["fas fa-sun", " Claro"] := by
  rw [isLight_after_click n₂ _ hu₂ hn₂, output_after_click n₂ _ hu₂ hn₂,
    isLight_after_click n₁ w hu₁ hn₁]
  cases isLight w <;> simp

/-- Witness for C2: two clicks on a light body. -/
theorem double_click_restores_theme_witness :
    isLight (toggleTheme (JSValue.number 2)
      (toggleTheme (JSValue.number 1) ⟨["theme-light"], []⟩).1).1
      = isLight ⟨["theme-light"], []⟩ ∧
    (toggleTheme (JSValue.number 2)
      (toggleTheme (JSValue.number 1) ⟨["theme-light"], []⟩).1).2 =
      if isLight ⟨["theme-light"], []⟩ then ["fas fa-moon", " Escuro"]
      else ["fas fa-sun", " Claro"] :=
  double_click_restores_theme (JSValue.number 1) (JSValue.number 2) ⟨["theme-light"], []⟩
    (by decide) (by decide) (by decide) (by decide)

/-- C3, evaluated where it fails: trigger `null`, nothing stored, body carrying
`theme-light`. The class stays on the body and the moon icon is returned, while the
comment in the source announces the default dark at this point. -/
theorem load_without_stored_keeps_light_body :
    storedTheme ⟨["theme-light"], []⟩ = none ∧
    toggleTheme JSValue.null ⟨["theme-light"], []⟩
      = (⟨["theme-light"], []⟩, ["fas fa-moon", " Escuro"]) ∧
    isLight (toggleTheme JSValue.null ⟨["theme-light"], []⟩).1 = true := by
  decide

/-- C4. With trigger `undefined` or `null` the stored theme is applied without
toggling, whatever the body carries: stored "light" leaves `theme-light` on the body
and returns the moon icon, stored "dark" leaves the body without it and returns the
sun icon. -/
theorem load_applies_stored_theme (n : JSValue) (w : Browser)
    (h : n = JSValue.undefined ∨ n = JSValue.null) :
    (storedTheme w = some "light" →
      isLight (toggleTheme n w).1 = true ∧
      (toggleTheme n w).2 = ["fas fa-moon", " Escuro"]) ∧
    (storedTheme w = some "dark" →
      isLight (toggleTheme n w).1 = false ∧
      (toggleTheme n w).2 = ["fas fa-sun", " Claro"]) := by
  rw [isLight_after_load n w h, output_after_load n w h]
  constructor
  · intro hs
    rw [loadTheme_of_stored w "light" (by decide) hs]
    simp
  · intro hs
    rw [loadTheme_of_stored w "dark" (by decide) hs]
    simp

/-- Witness for C4: stored "light" on a body without the class, stored "dark" on a
body with it. -/
theorem load_applies_stored_theme_witness :
    (isLight (toggleTheme JSValue.null ⟨[], [("theme", "light")]⟩).1 = true ∧
      (toggleTheme JSValue.null ⟨[], [("theme", "light")]⟩).2
        = ["fas fa-moon", " Escuro"]) ∧
    (isLight (toggleTheme JSValue.undefined ⟨["theme-light"], [("theme", "dark")]⟩).1
        = false ∧
      (toggleTheme JSValue.undefined ⟨["theme-light"], [("theme", "dark")]⟩).2
        = ["fas fa-sun", " Claro"]) :=
  ⟨(load_applies_stored_theme JSValue.null ⟨[], [("theme", "light")]⟩
      (Or.inr rfl)).1 (by decide),
   (load_applies_stored_theme JSValue.undefined ⟨["theme-light"], [("theme", "dark")]⟩
      (Or.inl rfl)).2 (by decide)⟩

/-- C5. From a store whose theme is absent, "light" or "dark", the stored theme is
absent, "light" or "dark" after every call of every sequence of calls; and a call
on any browser state either leaves the storage area as it was or performs
`setItem` on the key `theme` with the value "light" or the value "dark". -/
theorem stored_theme_stays_literal (ns : List JSValue) (w : Browser)
    (h : validStore w) :
    (∀ k : Nat, validStore (runCalls (ns.take k) w)) ∧
    (∀ (n : JSValue) (v : Browser),
      (toggleTheme n v).1.localStorage = v.localStorage ∨
      (toggleTheme n v).1.localStorage = v.localStorage.setItem "theme" "light" ∨
      (toggleTheme n v).1.localStorage = v.localStorage.setItem "theme" "dark") := by
  constructor
  · intro k
    exact validStore_runCalls (ns.take k) w h
  · intro n v
    by_cases hc : n = JSValue.undefined ∨ n = JSValue.null
    · exact Or.inl (localStorage_after_load n v hc)
    · have hu : n ≠ JSValue.undefined := fun e => hc (Or.inl e)
      have hn : n ≠ JSValue.null := fun e => hc (Or.inr e)
      rw [toggleTheme_click n v hu hn]
      by_cases hl : isLight v = true
      · rw [if_pos hl]
        exact Or.inr (Or.inr rfl)
      · rw [if_neg hl]
        exact Or.inr (Or.inl rfl)

/-- Witness for C5: a load, two clicks and a load, from a store holding "dark". -/
theorem stored_theme_stays_literal_witness :
    validStore ⟨[], [("theme", "dark")]⟩ ∧
    validStore (runCalls
      ([JSValue.null, JSValue.number 1, JSValue.number 2, JSValue.undefined].take 3)
      ⟨[], [("theme", "dark")]⟩) :=
  ⟨by decide,
   (stored_theme_stays_literal
      [JSValue.null, JSValue.number 1, JSValue.number 2, JSValue.undefined]
      ⟨[], [("theme", "dark")]⟩ (by decide)).1 3⟩

/-- C6, evaluated where it fails: trigger `undefined`, stored theme the empty
string, body carrying `theme-light`. The call returns, the class stays on the body
and the moon icon is returned instead of the default dark. -/
theorem load_with_empty_stored_keeps_light_body :
    storedTheme ⟨["theme-light"], [("theme", "")]⟩ = some "" ∧
    toggleTheme JSValue.undefined ⟨["theme-light"], [("theme", "")]⟩
      = (⟨["theme-light"], [("theme", "")]⟩, ["fas fa-moon", " Escuro"]) ∧
    isLight (toggleTheme JSValue.undefined ⟨["theme-light"], [("theme", "")]⟩).1
      = true := by
  decide

/-- C7. A call with trigger `undefined` or `null` leaves the storage area as it
was, and no call, whatever the trigger, removes a key that was present, the key
`theme` in particular. -/
theorem load_keeps_storage_and_no_key_removed (n : JSValue) (w : Browser) :
    ((n = JSValue.undefined ∨ n = JSValue.null) →
      (toggleTheme n w).1.localStorage = w.localStorage) ∧
    ((storedTheme w).isSome = true → (storedTheme (toggleTheme n w).1).isSome = true) ∧
    (∀ key : String, (w.localStorage.getItem key).isSome = true →
      ((toggleTheme n w).1.localStorage.getItem key).isSome = true) := by
  have hkeys : ∀ key : String, (w.localStorage.getItem key).isSome = true →
      ((toggleTheme n w).1.localStorage.getItem key).isSome = true := by
    intro key hk
    by_cases hc : n = JSValue.undefined ∨ n = JSValue.null
    · rw [localStorage_after_load n w hc]
      exact hk
    · have hu : n ≠ JSValue.undefined := fun e => hc (Or.inl e)
      have hn : n ≠ JSValue.null := fun e => hc (Or.inr e)
      rw [toggleTheme_click n w hu hn]
      by_cases hl : isLight w = true
      · rw [if_pos hl]
        exact Storage.getItem_setItem_isSome w.localStorage "theme" "dark" key hk
      · rw [if_neg hl]
        exact Storage.getItem_setItem_isSome w.localStorage "theme" "light" key hk
  exact ⟨localStorage_after_load n w, hkeys "theme", hkeys⟩

/-- Witness for C7: a load on a store with a malformed theme and another key. -/
theorem load_keeps_storage_and_no_key_removed_witness :
    (toggleTheme JSValue.null ⟨["theme-light"], [("lang", "pt"), ("theme", "blue")]⟩).1.localStorage
      = [("lang", "pt"), ("theme", "blue")] ∧
    (storedTheme (toggleTheme JSValue.null
      ⟨["theme-light"], [("lang", "pt"), ("theme", "blue")]⟩).1).isSome = true :=
  ⟨(load_keeps_storage_and_no_key_removed JSValue.null
      ⟨["theme-light"], [("lang", "pt"), ("theme", "blue")]⟩).1 (Or.inr rfl),
   (load_keeps_storage_and_no_key_removed JSValue.null
      ⟨["theme-light"], [("lang", "pt"), ("theme", "blue")]⟩).2.1 (by decide)⟩

/-- C8 as stated fails: after a click on a dark body the resulting theme is light
and the returned label is " Escuro", not "Dark". -/
theorem returned_label_is_not_Dark :
    isLight (toggleTheme (JSValue.number 1) ⟨[], []⟩).1 = true ∧
    (toggleTheme (JSValue.number 1) ⟨[], []⟩).2 = ["fas fa-moon", " Escuro"] ∧
    (toggleTheme (JSValue.number 1) ⟨[], []⟩).2 ≠ ["fas fa-moon", "Dark"] := by
  decide

/-- C8, amended. For every input the returned array has two elements and is one of
exactly two pairs: the moon icon with the label " Escuro" when the resulting theme
is light, the sun icon with the label " Claro" when it is dark. -/
theorem returns_one_of_two_pairs (n : JSValue) (w : Browser) :
    (toggleTheme n w).2.length = 2 ∧
    (toggleTheme n w).2 =
      if isLight (toggleTheme n w).1 then ["fas fa-moon", " Escuro"]
      else ["fas fa-sun", " Claro"] := by
  have h := output_eq_of_isLight n w
  refine ⟨?_, h⟩
  rw [h]
  split <;> rfl

/-- C9. For every trigger, body class list and stored value, the returned array
agrees with the body left behind: it is the moon icon with the text " Escuro" if
and only if the body carries `theme-light` after the call, and the sun icon with the
text " Claro" if and only if it does not. -/
theorem output_agrees_with_body (n : JSValue) (w : Browser) :
    ((toggleTheme n w).2 = ["fas fa-moon", " Escuro"] ↔
      isLight (toggleTheme n w).1 = true) ∧
    ((toggleTheme n w).2 = ["fas fa-sun", " Claro"] ↔
      isLight (toggleTheme n w).1 = false) := by
  rw [output_eq_of_isLight n w]
  cases isLight (toggleTheme n w).1 <;> simp

/-- C10. After a call made when the stored theme is absent, "light" or "dark", the
stored theme is absent or names the active theme: it is "light" exactly when the
body carries `theme-light` and "dark" exactly when it does not. After a call with a
present trigger it is not absent. -/
theorem store_agrees_with_body (n : JSValue) (w : Browser) (h : validStore w) :
    (storedTheme (toggleTheme n w).1 = none ∨
      ((storedTheme (toggleTheme n w).1 = some "light" ↔
          isLight (toggleTheme n w).1 = true) ∧
       (storedTheme (toggleTheme n w).1 = some "dark" ↔
          isLight (toggleTheme n w).1 = false))) ∧
    (n ≠ JSValue.undefined → n ≠ JSValue.null →
      storedTheme (toggleTheme n w).1 ≠ none) := by
  constructor
  · by_cases hc : n = JSValue.undefined ∨ n = JSValue.null
    · have hs : storedTheme (toggleTheme n w).1 = storedTheme w := by
        unfold storedTheme
        rw [localStorage_after_load n w hc]
      rw [hs, isLight_after_load n w hc]
      rcases h with h | h | h
      · exact Or.inl h
      · right
        rw [loadTheme_of_stored w "light" (by decide) h, h]
        simp
      · right
        rw [loadTheme_of_stored w "dark" (by decide) h, h]
        simp
    · have hu : n ≠ JSValue.undefined := fun e => hc (Or.inl e)
      have hn : n ≠ JSValue.null := fun e => hc (Or.inr e)
      right
      rw [storedTheme_after_click n w hu hn, isLight_after_click n w hu hn]
      cases isLight w <;> simp
  · intro hu hn
    rw [storedTheme_after_click n w hu hn]
    simp

/-- Witness for C10: a click on a light body whose store holds "light". -/
theorem store_agrees_with_body_witness :
    validStore ⟨["theme-light"], [("theme", "light")]⟩ ∧
    storedTheme (toggleTheme (JSValue.number 3)
      ⟨["theme-light"], [("theme", "light")]⟩).1 ≠ none :=
  ⟨by decide,
   (store_agrees_with_body (JSValue.number 3) ⟨["theme-light"], [("theme", "light")]⟩
      (by decide)).2 (by decide) (by decide)⟩

end ThemeToggle
